import Mathlib

/-!
Verification of the WEAPM-LOGSERVER API client (`script/weapm/weapm_client.py`).

The Python client is shallowly embedded: JSON/YAML values become an inductive
`Json` type (objects are ordered association lists, mirroring Python dict
insertion order), fallible code returns `Except`, and the HTTP transport is
abstracted by passing each call the observed transport outcome (status code and
decode result).
-/

/-- JSON / YAML values as decoded by `response.json()` / `yaml.safe_load`.
Objects keep key order, as Python dicts do; numbers are rationals (covers the
ints and the `0.5` backoff factor appearing in the source). -/
inductive Json where
  | null
  | bool (b : Bool)
  | num (q : ℚ)
  | str (s : String)
  | arr (xs : List Json)
  | obj (kvs : List (String × Json))

/-- First-match association-list lookup: Python `d[k]` / `k in d` on a dict
(whose keys are unique, so first match is the match). -/
def jsonLookup (k : String) : List (String × Json) → Option Json
  | [] => none
  | (k', v) :: rest => if k' = k then some v else jsonLookup k rest

/-- Python `d.get(k, default)`. -/
def dict_get (kvs : List (String × Json)) (k : String) (default : Json) : Json :=
  (jsonLookup k kvs).getD default

/-- Python dict item assignment `d[k] = v`: replace in place when the key
exists, append otherwise. -/
def dictInsert (d : List (String × Json)) (k : String) (v : Json) :
    List (String × Json) :=
  if d.any (fun p => p.1 = k) then
    d.map (fun p => if p.1 = k then (k, v) else p)
  else
    d ++ [(k, v)]

/-- Python `d.update(kvs)`: item assignment for each pair in order. -/
def dictUpdate (d : List (String × Json)) (kvs : List (String × Json)) :
    List (String × Json) :=
  kvs.foldl (fun acc p => dictInsert acc p.1 p.2) d

/-- Python `isinstance(x, dict)` on a decoded JSON value. -/
def isDict : Json → Bool
  | .obj _ => true
  | _ => false

/-- Python `x == 0` on a decoded JSON value (`False == 0` holds in Python). -/
def pyEqZero : Json → Bool
  | .num q => q = 0
  | .bool b => !b
  | _ => false

/-- The error kinds a single `WeapmClient._request` call can surface, per the
spec's taxonomy: `HttpError` is `response.raise_for_status()`, `DecodeError`
is the `json.JSONDecodeError` branch, `ApplicationError` is the business-code
`requests.HTTPError` raised on a non-zero `code` field. -/
inductive WeapmError where
  | httpError (status : Nat)
  | decodeError
  | applicationError (code : Json) (message : Json)

/-- The business-error check of `WeapmClient._request` (src lines 189-197):
`if isinstance(data, dict) and 'code' in data: if data['code'] != 0:
raise ... (code, data.get('message', '未知错误'))`, else `return data`. -/
def checkBusinessCode (data : Json) : Except WeapmError Json :=
  match data with
  | .obj kvs =>
    match jsonLookup "code" kvs with
    | some c =>
      if pyEqZero c then .ok (.obj kvs)
      else .error (.applicationError c (dict_get kvs "message" (.str "未知错误")))
    | none => .ok (.obj kvs)
  | d => .ok d

/-- Response handling of `WeapmClient._request` after the transport returns:
`raise_for_status()` (4xx/5xx), then JSON decoding (`decoded = none` models a
`json.JSONDecodeError`), then the business-code check. -/
def processResponse (status : Nat) (decoded : Option Json) :
    Except WeapmError Json :=
  if 400 ≤ status ∧ status < 600 then .error (.httpError status)
  else
    match decoded with
    | none => .error .decodeError
    | some data => checkBusinessCode data

/-- The `WeapmConfig` dataclass (src lines 33-44).  Fields hold whatever JSON
values the YAML document supplied — the Python code performs no type
validation on them. -/
structure WeapmConfig where
  base_url : Json
  username : Json
  password : Json
  timeout : Json
  max_retries : Json
  retry_backoff_factor : Json
  pool_connections : Json
  pool_maxsize : Json
  enable_logging : Json

/-- Model of `WeapmConfig.from_dict` (src lines 46-59): each field read with
`config_dict.get(key, default)`. -/
def from_dict (config_dict : List (String × Json)) : WeapmConfig :=
  { base_url := dict_get config_dict "base_url" (.str "")
    username := dict_get config_dict "username" (.str "weapmUser")
    password := dict_get config_dict "password" (.str "Weapm@123admin")
    timeout := dict_get config_dict "timeout" (.num 30)
    max_retries := dict_get config_dict "max_retries" (.num 3)
    retry_backoff_factor := dict_get config_dict "retry_backoff_factor" (.num (1/2))
    pool_connections := dict_get config_dict "pool_connections" (.num 10)
    pool_maxsize := dict_get config_dict "pool_maxsize" (.num 10)
    enable_logging := dict_get config_dict "enable_logging" (.bool true) }

/-- Substring test on character lists (Python `needle in haystack` for
strings). -/
def charsContain (haystack needle : List Char) : Bool :=
  haystack.tails.any (fun t => needle.isPrefixOf t)

/-- Python `key in container` for a decoded value: key membership for dicts,
element equality for lists, substring for strings; `none` models the
`TypeError` Python raises for the remaining shapes. -/
def py_contains (container : Json) (key : String) : Option Bool :=
  match container with
  | .obj kvs => some (kvs.any (fun p => p.1 = key))
  | .arr xs => some (xs.any (fun x => match x with
      | .str s => s = key
      | _ => false))
  | .str s => some (charsContain s.toList key.toList)
  | _ => none

/-- Failure modes of `WeapmConfig.from_yaml`: `configNotFound` is the
`FileNotFoundError`, `invalidEnvironment` the two `ValueError` sites, and
`pyCrash` an uncaught `TypeError`/`AttributeError` on a non-mapping
environment entry. -/
inductive ConfigError where
  | configNotFound
  | invalidEnvironment
  | pyCrash

/-- Environment selection in `WeapmConfig.from_yaml` (src lines 91-92):
`if env is None: env = config_data.get('active_env', 'dev')`. -/
def resolvedEnvName (config_data : List (String × Json)) (env : Option String) :
    Json :=
  match env with
  | some e => .str e
  | none => (jsonLookup "active_env" config_data).getD (.str "dev")

/-- Environment extraction and validation in `WeapmConfig.from_yaml`
(src lines 95-105): `if env not in config_data: raise ValueError`, then
`if 'base_url' not in env_config: raise ValueError`, then
`cls.from_dict(env_config)`.  A resolved name that is not a string matches no
string key, hence the same `ValueError`; a non-mapping environment entry
either fails the `'base_url' not in env_config` test (`ValueError`) or crashes
on it / inside `from_dict`. -/
def from_yaml_env (config_data : List (String × Json)) (envName : Json) :
    Except ConfigError WeapmConfig :=
  match envName with
  | .str name =>
    match jsonLookup name config_data with
    | none => .error .invalidEnvironment
    | some env_config =>
      match env_config with
      | .obj fields =>
        if fields.any (fun p => p.1 = "base_url") then .ok (from_dict fields)
        else .error .invalidEnvironment
      | other =>
        match py_contains other "base_url" with
        | some true => .error .pyCrash
        | some false => .error .invalidEnvironment
        | none => .error .pyCrash
  | _ => .error .invalidEnvironment

/-- Model of `WeapmConfig.from_yaml` (src lines 61-105).  File reading and YAML parsing
are external: the call receives whether a document exists at the resolved path
and, when it does, the decoded top-level mapping (the configuration document is
a mapping keyed by environment name; `config_data.get` requires this shape).
`env = none` models omitting the `env` argument. -/
def from_yaml (fileExists : Bool) (config_data : List (String × Json))
    (env : Option String) : Except ConfigError WeapmConfig :=
  if fileExists = false then .error .configNotFound
  else from_yaml_env config_data (resolvedEnvName config_data env)

/-- Model of `str.rstrip('/')` (src line 121): drop every trailing `'/'`. -/
def rstripSlashes (s : String) : String :=
  String.mk ((s.toList.reverse.dropWhile (fun c => c = '/')).reverse)

/-- Client state built by `WeapmClient.__init__` (src lines 111-141): the
stored config, the stripped base URL, and the open session.  `__init__`
requires `config.base_url` to be a string (otherwise `.rstrip` raises). -/
structure WeapmClient where
  config : WeapmConfig
  base_url : String
  sessionOpen : Bool

/-- Model of `WeapmClient.__init__`: store the config, open a session, strip trailing
slashes off `config.base_url`. -/
def WeapmClient.init (config : WeapmConfig) : Option WeapmClient :=
  match config.base_url with
  | .str b => some { config := config, base_url := rstripSlashes b, sessionOpen := true }
  | _ => none

/-- URL construction in `WeapmClient._request` (src line 158):
`url = f"{self.base_url}{endpoint}"`. -/
def buildUrl (c : WeapmClient) (endpoint : String) : String :=
  c.base_url ++ endpoint

/-- Model of `WeapmClient._request` at client level: the client state is read, never
written, and the response outcome is validated by `processResponse`. -/
def WeapmClient.request (c : WeapmClient) (status : Nat) (decoded : Option Json) :
    WeapmClient × Except WeapmError Json :=
  (c, processResponse status decoded)

/-- Model of `WeapmClient.close` (src lines 456-458): `self.session.close()`. -/
def WeapmClient.close (c : WeapmClient) : WeapmClient :=
  { c with sessionOpen := false }

/-- Model of `WeapmClient.__enter__` (src lines 460-462): returns `self`. -/
def WeapmClient.enter (c : WeapmClient) : WeapmClient := c

/-- Model of `WeapmClient.__exit__` (src lines 464-466): calls `self.close()` whatever
the exception information is. -/
def WeapmClient.exit (c : WeapmClient)
    (exc_type exc_val exc_tb : Option String) : WeapmClient :=
  c.close

/-- Python's `with`-statement protocol specialised to `WeapmClient`
(`with WeapmClient(config) as client: body`): `__enter__`, then the body, then
`__exit__` on both the normal and the exceptional path; `__exit__` returns
`None`, so an exception keeps propagating. -/
def withClient {α : Type} (c : WeapmClient)
    (body : WeapmClient → Except (String × String × String) α) :
    Except (String × String × String) α × WeapmClient :=
  let entered := c.enter
  match body entered with
  | .ok a => (.ok a, entered.exit none none none)
  | .error (t, v, tb) => (.error (t, v, tb), entered.exit (some t) (some v) (some tb))

/-- Body construction of `WeapmClient.add_cluster_node` (src lines 249-301):
the literal dict `{address, clustername, role}`, then `data["cpulimit"]` /
`data["memlimit"]` when not `None`, then `data.update(kwargs)`. -/
def add_cluster_node_body (cluster_name address role : String)
    (cpulimit memlimit : Option String) (kwargs : List (String × Json)) :
    List (String × Json) :=
  let data : List (String × Json) :=
    [("address", .str address), ("clustername", .str cluster_name), ("role", .str role)]
  let data := match cpulimit with
    | some v => dictInsert data "cpulimit" (.str v)
    | none => data
  let data := match memlimit with
    | some v => dictInsert data "memlimit" (.str v)
    | none => data
  dictUpdate data kwargs

/-- The `result`-unwrapping done by the list-style operations:
`response.get('result', [])`.  `none` models the `AttributeError` Python
raises when `_request` returned a non-dict body. -/
def unwrap_result (response : Json) : Option Json :=
  match response with
  | .obj kvs => some (dict_get kvs "result" (.arr []))
  | _ => none

/-- Model of `WeapmClient.get_clusters` (src lines 227-235) applied to the observed
transport outcome of its `GET /operation/clusters` call. -/
def get_clusters (status : Nat) (decoded : Option Json) :
    Except WeapmError (Option Json) :=
  (processResponse status decoded).map unwrap_result

/-- Model of `WeapmClient.get_subsystems` (src lines 424-432) applied to the observed
transport outcome of its `GET /operation/subsystems` call. -/
def get_subsystems (status : Nat) (decoded : Option Json) :
    Except WeapmError (Option Json) :=
  (processResponse status decoded).map unwrap_result

/-- Model of `WeapmClient.get_cluster_subsystems` (src lines 315-326) applied to the
observed transport outcome of its call. -/
def get_cluster_subsystems (status : Nat) (decoded : Option Json) :
    Except WeapmError (Option Json) :=
  (processResponse status decoded).map unwrap_result

/-- Response handling of `WeapmClient.search_subsystems` (src lines 434-452)
applied to the observed transport outcome of its call. -/
def search_subsystems (status : Nat) (decoded : Option Json) :
    Except WeapmError (Option Json) :=
  (processResponse status decoded).map unwrap_result

/-- Python truthiness of the `Optional[str]` argument `subsys_id`:
`None` and `""` are falsy. -/
def pyTruthyOptStr : Option String → Bool
  | none => false
  | some s => !(s = "")

/-- Query-parameter construction of `WeapmClient.search_subsystems`
(src lines 445-449): `params = {}`, `subsysId` added when `subsys_id` is
truthy, `limit` added when `limit != 20`. -/
def search_subsystems_params (subsys_id : Option String) (limit : ℤ) :
    List (String × Json) :=
  let params : List (String × Json) := []
  let params := if pyTruthyOptStr subsys_id then
      dictInsert params "subsysId" (match subsys_id with
        | some s => .str s
        | none => .null)
    else params
  let params := if limit ≠ 20 then dictInsert params "limit" (.num limit)
    else params
  params

/-- The options of Python's `@dataclass` decorator that govern generated
behaviour; `frozen=True` is the mechanism that makes field assignment raise
`FrozenInstanceError`. -/
structure DataclassOptions where
  init : Bool
  repr : Bool
  eq : Bool
  frozen : Bool

/-- The `WeapmConfig` class is declared with a bare `@dataclass` (src line 33), i.e.
with the decorator's defaults — in particular `frozen=False`. -/
def weapmConfigDataclassOptions : DataclassOptions :=
  { init := true, repr := true, eq := true, frozen := false }

/-- Writing one named field of a `WeapmConfig` record. -/
def setConfigField (cfg : WeapmConfig) (field : String) (v : Json) : WeapmConfig :=
  match field with
  | "base_url" => { cfg with base_url := v }
  | "username" => { cfg with username := v }
  | "password" => { cfg with password := v }
  | "timeout" => { cfg with timeout := v }
  | "max_retries" => { cfg with max_retries := v }
  | "retry_backoff_factor" => { cfg with retry_backoff_factor := v }
  | "pool_connections" => { cfg with pool_connections := v }
  | "pool_maxsize" => { cfg with pool_maxsize := v }
  | "enable_logging" => { cfg with enable_logging := v }
  | _ => cfg

/-- Python attribute assignment `cfg.field = v` on a dataclass instance:
rejected with `FrozenInstanceError` exactly when the dataclass is frozen. -/
def dataclass_setattr (opts : DataclassOptions) (cfg : WeapmConfig)
    (field : String) (v : Json) : Except String WeapmConfig :=
  if opts.frozen then .error "FrozenInstanceError"
  else .ok (setConfigField cfg field v)


/-! ## Claims -/

/-- C1.  For every `_request` call whose decoded body is a mapping whose
`code` value is `0`, the mapping is returned without raising; when the `code`
value is non-zero (`pyEqZero` false), the call raises the application error
carrying that code and the body's message — even though the transport status
is a 2xx success. -/
theorem weapm_C1 (status : Nat) (kvs : List (String × Json))
    (h2xx : 200 ≤ status ∧ status < 300) :
    (jsonLookup "code" kvs = some (.num 0) →
      processResponse status (some (.obj kvs)) = .ok (.obj kvs)) ∧
    (∀ c : Json, jsonLookup "code" kvs = some c → pyEqZero c = false →
      processResponse status (some (.obj kvs)) =
        .error (.applicationError c (dict_get kvs "message" (.str "未知错误")))) := by
  have hs : ¬(400 ≤ status ∧ status < 600) := by omega
  constructor
  · intro h0
    simp [processResponse, hs, checkBusinessCode, h0, pyEqZero]
  · intro c hc hcz
    simp [processResponse, hs, checkBusinessCode, hc, hcz]

/-- Witness for C1 at the spec's own examples `{code:0, result:[]}` and
`{code:7, message:"m"}` with transport status 200. -/
theorem weapm_C1_witness :
    processResponse 200 (some (.obj [("code", .num 0), ("result", .arr [])])) =
      .ok (.obj [("code", .num 0), ("result", .arr [])]) ∧
    processResponse 200 (some (.obj [("code", .num 7), ("message", .str "m")])) =
      .error (.applicationError (.num 7) (.str "m")) := by
  constructor
  · exact (weapm_C1 200 [("code", .num 0), ("result", .arr [])] (by omega)).1 rfl
  · exact ((weapm_C1 200 [("code", .num 7), ("message", .str "m")] (by omega)).2
      (.num 7) rfl (by decide))

/-- C2.  A 2xx response whose decoded body is not a mapping is returned
unchanged: the business-code inspection is skipped, so no application error is
raised for a non-mapping body. -/
theorem weapm_C2 (status : Nat) (j : Json)
    (h2xx : 200 ≤ status ∧ status < 300) (hj : isDict j = false) :
    processResponse status (some j) = .ok j := by
  have hs : ¬(400 ≤ status ∧ status < 600) := by omega
  cases j <;> simp_all [processResponse, checkBusinessCode, isDict]

/-- Witness for C2: a 200 response whose body is the JSON list `[1]` is
returned unchanged. -/
theorem weapm_C2_witness :
    processResponse 200 (some (.arr [.num 1])) = .ok (.arr [.num 1]) :=
  weapm_C2 200 (.arr [.num 1]) (by omega) rfl

/-- The head of `dropWhile (· = '/')` is never `'/'`. -/
theorem head_dropWhile_slash_ne (l : List Char) :
    (l.dropWhile (fun c => c = '/')).head? ≠ some '/' := by
  induction l with
  | nil => simp [List.dropWhile]
  | cons a l ih =>
    by_cases ha : a = '/'
    · simpa [List.dropWhile, ha] using ih
    · simp [List.dropWhile, ha]

/-- The function `rstripSlashes` never leaves a trailing `'/'`. -/
theorem rstripSlashes_no_trailing_slash (s : String) :
    (rstripSlashes s).toList.getLast? ≠ some '/' := by
  have h := head_dropWhile_slash_ne (s.toList.reverse)
  simpa [rstripSlashes, String.toList, List.getLast?_reverse] using h

/-- C3.  For every configured `base_url` (a string, as `__init__` requires)
and every request path of the client (all start with a single `'/'`), the full
request URL is the trailing-slash-stripped `base_url` concatenated with the
path; the stripped base never ends in `'/'` and the path starts with exactly
one `'/'`, so the junction has no double and no missing slash. -/
theorem weapm_C3 (config : WeapmConfig) (b path : String)
    (hb : config.base_url = .str b)
    (h1 : path.toList.head? = some '/')
    (h2 : (path.toList.drop 1).head? ≠ some '/') :
    ∃ client, WeapmClient.init config = some client ∧
      buildUrl client path = rstripSlashes b ++ path ∧
      (rstripSlashes b).toList.getLast? ≠ some '/' ∧
      path.toList.head? = some '/' ∧
      (path.toList.drop 1).head? ≠ some '/' := by
  refine ⟨⟨config, rstripSlashes b, true⟩, ?_, rfl,
    rstripSlashes_no_trailing_slash b, h1, h2⟩
  simp [WeapmClient.init, hb]

/-- Witness for C3 at the spec's example: base_url `"http://host:8080/"` and
path `"/operation/dashboard"` give `"http://host:8080/operation/dashboard"`. -/
theorem weapm_C3_witness :
    ∃ client,
      WeapmClient.init (from_dict [("base_url", .str "http://host:8080/")]) =
        some client ∧
      buildUrl client "/operation/dashboard" =
        "http://host:8080/operation/dashboard" := by
  obtain ⟨client, hinit, hurl, -, -, -⟩ :=
    weapm_C3 (from_dict [("base_url", .str "http://host:8080/")])
      "http://host:8080/" "/operation/dashboard" rfl rfl (by decide)
  exact ⟨client, hinit, hurl.trans (by rfl)⟩

/-- Assigning a key not yet present appends it. -/
theorem dictInsert_fresh (d : List (String × Json)) (k : String) (v : Json)
    (h : d.any (fun p => p.1 = k) = false) :
    dictInsert d k v = d ++ [(k, v)] := by
  simp [dictInsert, h]

/-- Updating `d.update(kvs)` with pairwise-distinct new keys, none present in `d`,
appends the pairs in order. -/
theorem dictUpdate_fresh (kvs : List (String × Json)) (d : List (String × Json))
    (hnd : (kvs.map Prod.fst).Nodup)
    (h : ∀ k ∈ kvs.map Prod.fst, d.any (fun p => p.1 = k) = false) :
    dictUpdate d kvs = d ++ kvs := by
  induction kvs generalizing d with
  | nil => simp [dictUpdate]
  | cons kv rest ih =>
    obtain ⟨k, v⟩ := kv
    have hnd' : (k :: rest.map Prod.fst).Nodup := by
      rw [List.map_cons] at hnd; exact hnd
    obtain ⟨hk_not, hrest_nd⟩ := List.nodup_cons.mp hnd'
    have hk : d.any (fun p => p.1 = k) = false := h k (by simp)
    have hstep : dictUpdate d ((k, v) :: rest) = dictUpdate (dictInsert d k v) rest := rfl
    rw [hstep, dictInsert_fresh d k v hk, ih (d ++ [(k, v)]) hrest_nd]
    · simp
    · intro k' hk'
      have h1 : d.any (fun p => p.1 = k') = false := h k' (by simp [hk'])
      have h2 : ¬(k = k') := fun he => hk_not (he ▸ hk')
      simp [List.any_append, h1, h2]

/-- C4.  `add_cluster_node` with no optional arguments produces a body with
exactly the keys `address`, `clustername`, `role` bound to its arguments;
`cpulimit`/`memlimit` are added only when not `None`, and every additional
keyword argument is appended verbatim alongside the required keys (keyword
names are pairwise distinct and, being keyword arguments of the Python call,
distinct from the named parameters). -/
theorem weapm_C4 (c a r : String) (cl ml : Option String)
    (kwargs : List (String × Json))
    (hnd : (kwargs.map Prod.fst).Nodup)
    (hdisj : ∀ k ∈ kwargs.map Prod.fst,
      k ∉ (["address", "clustername", "role", "cpulimit", "memlimit"] : List String)) :
    add_cluster_node_body c a r none none [] =
      [("address", .str a), ("clustername", .str c), ("role", .str r)] ∧
    add_cluster_node_body c a r cl ml kwargs =
      [("address", .str a), ("clustername", .str c), ("role", .str r)]
        ++ (match cl with | some v => [("cpulimit", Json.str v)] | none => [])
        ++ (match ml with | some v => [("memlimit", Json.str v)] | none => [])
        ++ kwargs := by
  refine ⟨rfl, ?_⟩
  have hne : ∀ k ∈ kwargs.map Prod.fst,
      ¬("address" = k) ∧ ¬("clustername" = k) ∧ ¬("role" = k) ∧
      ¬("cpulimit" = k) ∧ ¬("memlimit" = k) := by
    intro k hk
    have h := hdisj k hk
    simp only [List.mem_cons, List.not_mem_nil, or_false, not_or] at h
    exact ⟨fun e => h.1 e.symm, fun e => h.2.1 e.symm, fun e => h.2.2.1 e.symm,
      fun e => h.2.2.2.1 e.symm, fun e => h.2.2.2.2 e.symm⟩
  have freshAt : ∀ d : List (String × Json),
      (∀ p ∈ d, p.1 = "address" ∨ p.1 = "clustername" ∨ p.1 = "role" ∨
        p.1 = "cpulimit" ∨ p.1 = "memlimit") →
      ∀ k ∈ kwargs.map Prod.fst, d.any (fun p => p.1 = k) = false := by
    intro d hd k hk
    obtain ⟨h1, h2, h3, h4, h5⟩ := hne k hk
    rw [List.any_eq_false]
    intro p hp
    simp only [decide_eq_true_eq]
    rcases hd p hp with h | h | h | h | h
    · rw [h]; exact h1
    · rw [h]; exact h2
    · rw [h]; exact h3
    · rw [h]; exact h4
    · rw [h]; exact h5
  rcases cl with _ | v1 <;> rcases ml with _ | v2
  · have hf := freshAt
      [("address", .str a), ("clustername", .str c), ("role", .str r)]
      (by intro p hp
          simp only [List.mem_cons, List.not_mem_nil, or_false] at hp
          rcases hp with h | h | h <;> rw [h] <;> simp)
    calc add_cluster_node_body c a r none none kwargs
        = dictUpdate
            [("address", .str a), ("clustername", .str c), ("role", .str r)]
            kwargs := rfl
      _ = _ ++ kwargs := dictUpdate_fresh kwargs _ hnd hf
      _ = _ := by simp
  · have hf := freshAt
      [("address", .str a), ("clustername", .str c), ("role", .str r),
        ("memlimit", .str v2)]
      (by intro p hp
          simp only [List.mem_cons, List.not_mem_nil, or_false] at hp
          rcases hp with h | h | h | h <;> rw [h] <;> simp)
    calc add_cluster_node_body c a r none (some v2) kwargs
        = dictUpdate
            [("address", .str a), ("clustername", .str c), ("role", .str r),
              ("memlimit", .str v2)] kwargs := rfl
      _ = _ ++ kwargs := dictUpdate_fresh kwargs _ hnd hf
      _ = _ := by simp
  · have hf := freshAt
      [("address", .str a), ("clustername", .str c), ("role", .str r),
        ("cpulimit", .str v1)]
      (by intro p hp
          simp only [List.mem_cons, List.not_mem_nil, or_false] at hp
          rcases hp with h | h | h | h <;> rw [h] <;> simp)
    calc add_cluster_node_body c a r (some v1) none kwargs
        = dictUpdate
            [("address", .str a), ("clustername", .str c), ("role", .str r),
              ("cpulimit", .str v1)] kwargs := rfl
      _ = _ ++ kwargs := dictUpdate_fresh kwargs _ hnd hf
      _ = _ := by simp
  · have hf := freshAt
      [("address", .str a), ("clustername", .str c), ("role", .str r),
        ("cpulimit", .str v1), ("memlimit", .str v2)]
      (by intro p hp
          simp only [List.mem_cons, List.not_mem_nil, or_false] at hp
          rcases hp with h | h | h | h | h <;> rw [h] <;> simp)
    calc add_cluster_node_body c a r (some v1) (some v2) kwargs
        = dictUpdate
            [("address", .str a), ("clustername", .str c), ("role", .str r),
              ("cpulimit", .str v1), ("memlimit", .str v2)] kwargs := rfl
      _ = _ ++ kwargs := dictUpdate_fresh kwargs _ hnd hf
      _ = _ := by simp

/-- Witness for C4: the spec's examples — no optional arguments, and
`topic="t", status="active"` passed as extra keyword arguments. -/
theorem weapm_C4_witness :
    add_cluster_node_body "LOG008" "127.0.0.2" "write" none none [] =
      [("address", .str "127.0.0.2"), ("clustername", .str "LOG008"),
        ("role", .str "write")] ∧
    add_cluster_node_body "LOG008" "127.0.0.2" "write" none none
        [("topic", .str "t"), ("status", .str "active")] =
      [("address", .str "127.0.0.2"), ("clustername", .str "LOG008"),
        ("role", .str "write"), ("topic", .str "t"), ("status", .str "active")] := by
  have h := weapm_C4 "LOG008" "127.0.0.2" "write" none none
    [("topic", .str "t"), ("status", .str "active")] (by decide) (by decide)
  exact ⟨h.1, h.2.trans (by rfl)⟩

/-- C5.  On a 2xx response decoding to a mapping `{code:0, result:L}`, each
list-style operation (`get_clusters`, `get_subsystems`,
`get_cluster_subsystems`, `search_subsystems`) returns exactly `L`; when the
mapping lacks `result`, each returns the empty sequence. -/
theorem weapm_C5 (status : Nat) (kvs : List (String × Json))
    (h2xx : 200 ≤ status ∧ status < 300)
    (hcode : jsonLookup "code" kvs = some (.num 0)) :
    (∀ L : Json, jsonLookup "result" kvs = some L →
      get_clusters status (some (.obj kvs)) = .ok (some L) ∧
      get_subsystems status (some (.obj kvs)) = .ok (some L) ∧
      get_cluster_subsystems status (some (.obj kvs)) = .ok (some L) ∧
      search_subsystems status (some (.obj kvs)) = .ok (some L)) ∧
    (jsonLookup "result" kvs = none →
      get_clusters status (some (.obj kvs)) = .ok (some (.arr [])) ∧
      get_subsystems status (some (.obj kvs)) = .ok (some (.arr [])) ∧
      get_cluster_subsystems status (some (.obj kvs)) = .ok (some (.arr [])) ∧
      search_subsystems status (some (.obj kvs)) = .ok (some (.arr []))) := by
  have hs : ¬(400 ≤ status ∧ status < 600) := by omega
  have hok : processResponse status (some (.obj kvs)) = .ok (.obj kvs) := by
    simp [processResponse, hs, checkBusinessCode, hcode, pyEqZero]
  constructor
  · intro L hres
    have h : (processResponse status (some (.obj kvs))).map unwrap_result =
        .ok (some L) := by
      rw [hok]; simp [Except.map, unwrap_result, dict_get, hres]
    exact ⟨h, h, h, h⟩
  · intro hres
    have h : (processResponse status (some (.obj kvs))).map unwrap_result =
        .ok (some (.arr [])) := by
      rw [hok]; simp [Except.map, unwrap_result, dict_get, hres]
    exact ⟨h, h, h, h⟩

/-- Witness for C5 at the spec's examples:
`{code:0, result:[{"clustername":"a"}]}` and `{code:0}`. -/
theorem weapm_C5_witness :
    get_clusters 200
        (some (.obj [("code", .num 0),
          ("result", .arr [.obj [("clustername", .str "a")]])])) =
      .ok (some (.arr [.obj [("clustername", .str "a")]])) ∧
    get_subsystems 200 (some (.obj [("code", .num 0)])) =
      .ok (some (.arr [])) := by
  constructor
  · exact ((weapm_C5 200 [("code", .num 0),
      ("result", .arr [.obj [("clustername", .str "a")]])] (by omega) rfl).1
      (.arr [.obj [("clustername", .str "a")]]) rfl).1
  · exact ((weapm_C5 200 [("code", .num 0)] (by omega) rfl).2 rfl).2.1

/-- C6.  `from_yaml` fails with `ConfigNotFound` when no document exists at
the resolved path; it fails with `InvalidEnvironment` when the resolved
environment name is absent from the document, and when the selected
environment block is a mapping lacking `base_url`. -/
theorem weapm_C6 (doc : List (String × Json)) (env : Option String) (e : String)
    (he : resolvedEnvName doc env = .str e) :
    from_yaml false doc env = .error .configNotFound ∧
    (jsonLookup e doc = none →
      from_yaml true doc env = .error .invalidEnvironment) ∧
    (∀ fields, jsonLookup e doc = some (.obj fields) →
      fields.any (fun p => p.1 = "base_url") = false →
      from_yaml true doc env = .error .invalidEnvironment) := by
  have h0 : from_yaml true doc env = from_yaml_env doc (resolvedEnvName doc env) := rfl
  refine ⟨rfl, ?_, ?_⟩
  · intro habs
    rw [h0, he]
    simp [from_yaml_env, habs]
  · intro fields hsel hnb
    rw [h0, he]
    simp [from_yaml_env, hsel, hnb]

/-- Witness for C6: a missing document, an environment name absent from the
document, and a selected block lacking `base_url`. -/
theorem weapm_C6_witness :
    from_yaml false [("dev", .obj [("base_url", .str "http://h")])] (some "dev") =
      .error .configNotFound ∧
    from_yaml true [("dev", .obj [("base_url", .str "http://h")])] (some "prod") =
      .error .invalidEnvironment ∧
    from_yaml true [("dev", .obj [("username", .str "u")])] (some "dev") =
      .error .invalidEnvironment := by
  refine ⟨(weapm_C6 [("dev", .obj [("base_url", .str "http://h")])]
      (some "dev") "dev" rfl).1,
    (weapm_C6 [("dev", .obj [("base_url", .str "http://h")])]
      (some "prod") "prod" rfl).2.1 rfl,
    (weapm_C6 [("dev", .obj [("username", .str "u")])]
      (some "dev") "dev" rfl).2.2 [("username", .str "u")] rfl rfl⟩

/-- C7 counterexample.  `WeapmConfig` is a bare (non-frozen) `@dataclass`,
so field reassignment is admitted, contrary to the claim: assigning `timeout`
on a constructed config succeeds and changes the field instead of raising
`FrozenInstanceError`. -/
theorem weapm_C7_counterexample :
    weapmConfigDataclassOptions.frozen = false ∧
    dataclass_setattr weapmConfigDataclassOptions
        (from_dict [("base_url", .str "http://h")]) "timeout" (.num 5) =
      .ok (setConfigField (from_dict [("base_url", .str "http://h")])
        "timeout" (.num 5)) ∧
    (setConfigField (from_dict [("base_url", .str "http://h")])
      "timeout" (.num 5)).timeout = .num 5 ∧
    (from_dict [("base_url", .str "http://h")]).timeout = .num 30 :=
  ⟨rfl, rfl, rfl, rfl⟩

/-- C7 amended.  No operation of the client changes any field of the
stored configuration — request execution, `close`, `__enter__` and `__exit__`
all leave `config` untouched — but the constructed value does admit field
reassignment, because `WeapmConfig` is a non-frozen dataclass: `setattr`
succeeds on every field instead of raising. -/
theorem weapm_C7 :
    (∀ (c : WeapmClient) (status : Nat) (decoded : Option Json),
      (WeapmClient.request c status decoded).1.config = c.config) ∧
    (∀ c : WeapmClient, (WeapmClient.close c).config = c.config) ∧
    (∀ (c : WeapmClient) (et ev etb : Option String),
      (WeapmClient.exit c et ev etb).config = c.config) ∧
    (∀ c : WeapmClient, (WeapmClient.enter c).config = c.config) ∧
    weapmConfigDataclassOptions.frozen = false ∧
    (∀ (cfg : WeapmConfig) (field : String) (v : Json),
      dataclass_setattr weapmConfigDataclassOptions cfg field v =
        .ok (setConfigField cfg field v)) :=
  ⟨fun _ _ _ => rfl, fun _ => rfl, fun _ _ _ _ => rfl, fun _ => rfl, rfl,
    fun _ _ _ => rfl⟩

/-- C8.  On every exit path of a client scope the session is released:
`__exit__` invokes `close`, which closes the session, regardless of the
exception information it receives, and the `with`-protocol calls it on both
the normal and the exceptional path. -/
theorem weapm_C8 {α : Type} (c : WeapmClient) (et ev etb : Option String)
    (body : WeapmClient → Except (String × String × String) α) :
    WeapmClient.exit c et ev etb = WeapmClient.close c ∧
    (WeapmClient.exit c et ev etb).sessionOpen = false ∧
    (withClient c body).2.sessionOpen = false := by
  refine ⟨rfl, rfl, ?_⟩
  rcases hb : body (WeapmClient.enter c) with ⟨t, v, tb⟩ | a <;>
    simp [withClient, hb, WeapmClient.exit, WeapmClient.close]

/-- C9 counterexample.  The document `{dev: {}}` contains a `dev` entry,
yet resolution with the environment omitted (and no `active_env` declared)
fails — so "succeeds if and only if the document contains a 'dev' entry" is
false in the forward direction. -/
theorem weapm_C9_counterexample :
    (([("dev", Json.obj [])] : List (String × Json)).map Prod.fst) = ["dev"] ∧
    from_yaml true [("dev", .obj [])] none = .error .invalidEnvironment :=
  ⟨rfl, rfl⟩

/-- C9 amended.  With the environment omitted and no `active_env` key in
the document, the environment name defaults to the literal `"dev"`: resolution
behaves exactly as if `env="dev"` had been passed — it fails with
`InvalidEnvironment` when the document has no `dev` entry (rather than failing
merely for lack of a declared default), and succeeds when the `dev` block is a
mapping containing `base_url` (a `dev` entry alone does not guarantee
success). -/
theorem weapm_C9 (doc : List (String × Json))
    (hact : jsonLookup "active_env" doc = none) :
    from_yaml true doc none = from_yaml true doc (some "dev") ∧
    (jsonLookup "dev" doc = none →
      from_yaml true doc none = .error .invalidEnvironment) ∧
    (∀ fields, jsonLookup "dev" doc = some (.obj fields) →
      fields.any (fun p => p.1 = "base_url") = true →
      from_yaml true doc none = .ok (from_dict fields)) := by
  have h0 : from_yaml true doc none = from_yaml_env doc (resolvedEnvName doc none) := rfl
  have hdev : resolvedEnvName doc none = .str "dev" := by
    simp [resolvedEnvName, hact]
  refine ⟨?_, ?_, ?_⟩
  · rw [h0, hdev]; rfl
  · intro habs
    rw [h0, hdev]
    simp [from_yaml_env, habs]
  · intro fields hsel hb
    rw [h0, hdev]
    simp [from_yaml_env, hsel, hb]

/-- Witness for C9: a document with only a `dev` block carrying `base_url`
resolves to that block's config; one with only a `prod` block fails. -/
theorem weapm_C9_witness :
    from_yaml true [("dev", .obj [("base_url", .str "http://h")])] none =
      .ok (from_dict [("base_url", .str "http://h")]) ∧
    from_yaml true [("prod", .obj [("base_url", .str "http://h")])] none =
      .error .invalidEnvironment := by
  refine ⟨(weapm_C9 [("dev", .obj [("base_url", .str "http://h")])] rfl).2.2
      [("base_url", .str "http://h")] rfl rfl,
    (weapm_C9 [("prod", .obj [("base_url", .str "http://h")])] rfl).2.1 rfl⟩

/-- C10.  `search_subsystems` sends `subsysId` exactly when the
`subsys_id` argument is truthy (`None` and `""` send none), sends `limit`
exactly when `limit` differs from 20, and with default arguments sends no
query parameters at all. -/
theorem weapm_C10 (subsys_id : Option String) (limit : ℤ) :
    (search_subsystems_params subsys_id limit).any (fun p => p.1 = "subsysId")
      = pyTruthyOptStr subsys_id ∧
    (search_subsystems_params subsys_id limit).any (fun p => p.1 = "limit")
      = decide (limit ≠ 20) ∧
    search_subsystems_params none 20 = [] := by
  refine ⟨?_, ?_, rfl⟩ <;>
    rcases subsys_id with _ | s
  · by_cases hl : limit = 20 <;>
      simp [search_subsystems_params, pyTruthyOptStr, dictInsert, hl]
  · by_cases hs : s = "" <;> by_cases hl : limit = 20 <;>
      simp [search_subsystems_params, pyTruthyOptStr, dictInsert, hs, hl]
  · by_cases hl : limit = 20 <;>
      simp [search_subsystems_params, pyTruthyOptStr, dictInsert, hl]
  · by_cases hs : s = "" <;> by_cases hl : limit = 20 <;>
      simp [search_subsystems_params, pyTruthyOptStr, dictInsert, hs, hl]
